import Mathlib

/-!
Shallow embedding of the UIDAI district-analytics pipeline
(repository: natyavidhan/uidai-hackathon).

The pipeline lives in three Python files:
  * `main.py` — `compute_district_aggregates`, `compute_time_series_data`,
    `get_district_data`, `get_summary_stats` (pandas based);
  * `interface/precompute_data.py` — the precompute variant of the same
    aggregation, with the alternative `lifecycle_integrity` /
    `maintenance_imbalance` formulas and the absolute `classify_typology`;
  * `interface/main.py` — the serving layer that presents precomputed rows.

Modelling conventions:
  * pandas numeric columns are modelled as `ℚ` (the magnitudes involved are
    exact in float64, and every claim is about exact arithmetic facts);
  * `groupby(...).agg('sum')` over a key is modelled as the sum of a field
    over the rows whose key matches (pandas sorts group keys; the outer
    merge likewise sorts the union of keys, modelled by `sortBy`);
  * `fillna(0)` after the outer merge coincides with summing over an empty
    row set, which yields 0 directly;
  * Python `dict` assignment in a loop is modelled by `dictOf`
    (insert-or-replace, first-insertion key order, later values win);
  * Python `round(x, n)` (float, banker's ties) is modelled by `roundTo`
    with mathematical round-half-up on `ℚ`; no claim depends on tie
    behaviour;
  * Python `int(x)` truncation toward zero is `intTrunc`;
  * `str.lower().strip()` is `normKey` (ASCII case folding, which is what
    all district names in the datasets use);
  * `pd.to_datetime(s, format=dd-mm-YYYY, errors=coerce)` followed by
    `.dt.to_period(M).astype(str)` yields the string `"YYYY-MM"` when the
    date parses and the literal string `"NaT"` when it does not; this is
    `monthStr`.
-/

/-- Insert `x` into `l` before the first element `y` with `le x y`. -/
def insertBy {α : Type} (le : α → α → Bool) (x : α) : List α → List α
  | [] => [x]
  | y :: ys => if le x y then x :: y :: ys else y :: insertBy le x ys

/-- Insertion sort by a boolean `le`; models pandas sorting of group keys. -/
def sortBy {α : Type} (le : α → α → Bool) : List α → List α
  | [] => []
  | x :: xs => insertBy le x (sortBy le xs)

/-- Lexicographic string order, as used by pandas on object columns. -/
def strLe (a b : String) : Bool :=
  (compare a b).isLE

/-- Lexicographic order on (state, district) pairs. -/
def pairLe (a b : String × String) : Bool :=
  match compare a.1 b.1 with
  | .lt => true
  | .gt => false
  | .eq => (compare a.2 b.2).isLE

/-- Python dict assignment `d[k] = v`: replace the value if the key is
present, otherwise append the binding (insertion order preserved). -/
def dictInsert {β : Type} (d : List (String × β)) (k : String) (v : β) :
    List (String × β) :=
  if d.any (fun p => p.1 == k) then
    d.map (fun p => if p.1 == k then (k, v) else p)
  else
    d ++ [(k, v)]

/-- Build a Python dict by inserting the bindings in order. -/
def dictOf {β : Type} (ps : List (String × β)) : List (String × β) :=
  ps.foldl (fun d p => dictInsert d p.1 p.2) []

/-- Dict lookup, `d.get(k)` returning `None` on a miss. -/
def dictFind {β : Type} (d : List (String × β)) (k : String) : Option β :=
  (d.find? (fun p => p.1 == k)).map (fun p => p.2)

/-- `s.lower().strip()` — the region-key normalisation used by both entry
points when indexing rows by district name: case-fold every character,
then drop leading and trailing whitespace.  (Implemented directly on the
character list; this agrees with `String.toLower.trim` on the ASCII names
the datasets use.) -/
def normKey (s : String) : String :=
  ⟨(((s.data.map Char.toLower).dropWhile Char.isWhitespace).reverse.dropWhile
      Char.isWhitespace).reverse⟩

/-- `series.replace(0, 1)` applied to a denominator: the zero-guard of the
derived-metric divisions. -/
def repl0 (y : ℚ) : ℚ :=
  if y = 0 then 1 else y

/-- Python `int(x)`: truncation toward zero. -/
def intTrunc (x : ℚ) : ℤ :=
  if 0 ≤ x then ⌊x⌋ else ⌈x⌉

/-- Python `round(x, n)` on our rational model: round `x · 10^n` to the
nearest integer and scale back. -/
def roundTo (n : ℕ) (x : ℚ) : ℚ :=
  ((round (x * 10 ^ n) : ℤ) : ℚ) / 10 ^ n

/-- pandas `Series.median()`: middle element of the sorted values for odd
length, mean of the two middle elements for even length.  (pandas returns
NaN on an empty series; the 0 returned here is never relied upon.) -/
def median (xs : List ℚ) : ℚ :=
  let s := sortBy (fun a b => decide (a ≤ b)) xs
  let n := s.length
  if n = 0 then 0
  else if n % 2 = 1 then s.getD (n / 2) 0
  else (s.getD (n / 2 - 1) 0 + s.getD (n / 2) 0) / 2

/-- `series.value_counts().to_dict()`: label → multiplicity. -/
def valueCounts (l : List String) : List (String × ℕ) :=
  l.dedup.map (fun s => (s, l.count s))

/-- One raw enrolment event row (columns of the enrolment CSVs). -/
structure EnrolRow where
  state : String
  district : String
  date : String
  age_0_5 : ℚ
  age_5_17 : ℚ
  age_18_greater : ℚ
  deriving DecidableEq

/-- One raw demographic-update event row. -/
structure DemoRow where
  state : String
  district : String
  date : String
  demo_age_5_17 : ℚ
  demo_age_17_ : ℚ
  deriving DecidableEq

/-- One raw biometric-update event row. -/
structure BioRow where
  state : String
  district : String
  date : String
  bio_age_5_17 : ℚ
  bio_age_17_ : ℚ
  deriving DecidableEq

/-- The (state, district) key of an enrolment row. -/
def EnrolRow.key (r : EnrolRow) : String × String :=
  (r.state, r.district)

/-- The (state, district) key of a demographic row. -/
def DemoRow.key (r : DemoRow) : String × String :=
  (r.state, r.district)

/-- The (state, district) key of a biometric row. -/
def BioRow.key (r : BioRow) : String × String :=
  (r.state, r.district)

/-- Keys (with multiplicity) appearing in the enrolment collection. -/
def enrolKeys (e : List EnrolRow) : List (String × String) :=
  e.map EnrolRow.key

/-- Keys appearing in the demographic collection. -/
def demoKeys (d : List DemoRow) : List (String × String) :=
  d.map DemoRow.key

/-- Keys appearing in the biometric collection. -/
def bioKeys (b : List BioRow) : List (String × String) :=
  b.map BioRow.key

/-- Enrolment rows of one region (one pandas group). -/
def enrolRowsFor (e : List EnrolRow) (k : String × String) : List EnrolRow :=
  e.filter (fun r => r.key == k)

/-- Demographic rows of one region. -/
def demoRowsFor (d : List DemoRow) (k : String × String) : List DemoRow :=
  d.filter (fun r => r.key == k)

/-- Biometric rows of one region. -/
def bioRowsFor (b : List BioRow) (k : String × String) : List BioRow :=
  b.filter (fun r => r.key == k)

/-- Sum of a field over a list of rows. -/
def sumBy {α : Type} (f : α → ℚ) (rows : List α) : ℚ :=
  (rows.map f).sum

/-- Row order of the merged frame: the two outer merges of
`compute_district_aggregates` produce one row per (state, district) pair
present in any source, sorted lexicographically. -/
def mergedKeys (e : List EnrolRow) (d : List DemoRow) (b : List BioRow) :
    List (String × String) :=
  sortBy pairLe (enrolKeys e ++ demoKeys d ++ bioKeys b).dedup

/-- One row of the merged per-region table of `main.py`
(`compute_district_aggregates`): summed counts, totals, the six derived
metrics in the `main.py` variants, and the typology label (attached in a
second pass). -/
structure RegionRow where
  state : String
  district : String
  enrol_0_5 : ℚ
  enrol_5_17 : ℚ
  enrol_18_plus : ℚ
  total_enrolments : ℚ
  demo_5_17 : ℚ
  demo_18_plus : ℚ
  total_demo_updates : ℚ
  bio_5_17 : ℚ
  bio_18_plus : ℚ
  total_bio_updates : ℚ
  adult_enrolment_share : ℚ
  child_enrolment_share : ℚ
  identity_volatility : ℚ
  adult_bio_compliance : ℚ
  child_bio_compliance : ℚ
  lifecycle_integrity : ℚ
  maintenance_imbalance : ℚ
  district_typology : String
  deriving DecidableEq, Inhabited

/-- Build the merged row of one region: group sums, totals, and the derived
metrics exactly as in `main.py` lines 119–165 (typology filled later). -/
def makeRow (e : List EnrolRow) (d : List DemoRow) (b : List BioRow)
    (k : String × String) : RegionRow :=
  let e05 := sumBy EnrolRow.age_0_5 (enrolRowsFor e k)
  let e517 := sumBy EnrolRow.age_5_17 (enrolRowsFor e k)
  let e18 := sumBy EnrolRow.age_18_greater (enrolRowsFor e k)
  let te := e05 + e517 + e18
  let d517 := sumBy DemoRow.demo_age_5_17 (demoRowsFor d k)
  let d18 := sumBy DemoRow.demo_age_17_ (demoRowsFor d k)
  let td := d517 + d18
  let b517 := sumBy BioRow.bio_age_5_17 (bioRowsFor b k)
  let b18 := sumBy BioRow.bio_age_17_ (bioRowsFor b k)
  let tb := b517 + b18
  { state := k.1
    district := k.2
    enrol_0_5 := e05
    enrol_5_17 := e517
    enrol_18_plus := e18
    total_enrolments := te
    demo_5_17 := d517
    demo_18_plus := d18
    total_demo_updates := td
    bio_5_17 := b517
    bio_18_plus := b18
    total_bio_updates := tb
    adult_enrolment_share := e18 / repl0 te * 100
    child_enrolment_share := (e05 + e517) / repl0 te * 100
    identity_volatility := td / repl0 te
    adult_bio_compliance := b18 / repl0 e18 * 100
    child_bio_compliance := b517 / repl0 (e517 + e05) * 100
    lifecycle_integrity := tb / repl0 td
    maintenance_imbalance := (td - tb) / repl0 td
    district_typology := "" }

/-- `classify_district` of `main.py` lines 168–185 (the relative,
median-based policy), with the corpus medians passed explicitly. -/
def classify_district (volatility enrolment bio_compliance
    median_enrolment median_volatility : ℚ) : String :=
  if volatility < median_volatility ∧ enrolment < median_enrolment then
    "Stable & Saturated"
  else if volatility ≥ median_volatility then
    "Volatile"
  else if enrolment ≥ median_enrolment ∧ volatility < median_volatility then
    "Growth-focused"
  else if bio_compliance < 50 then
    "Under-maintained"
  else
    "Balanced"

/-- The full aggregation pass of `main.py` (`compute_district_aggregates`):
merged rows with derived metrics, then the relative typology attached using
the corpus medians of `total_enrolments` and `identity_volatility`. -/
def aggregateRows (e : List EnrolRow) (d : List DemoRow) (b : List BioRow) :
    List RegionRow :=
  let base := (mergedKeys e d b).map (makeRow e d b)
  let medE := median (base.map RegionRow.total_enrolments)
  let medV := median (base.map RegionRow.identity_volatility)
  base.map (fun r =>
    let t := classify_district r.identity_volatility r.total_enrolments
      r.adult_bio_compliance medE medV
    { r with district_typology := t })

/-- The result dict of `compute_district_aggregates`: rows keyed by
`district.lower().strip()` only (the state is dropped), later rows
overwriting earlier ones on a key collision. -/
def districtDict (rows : List RegionRow) : List (String × RegionRow) :=
  dictOf (rows.map (fun r => (normKey r.district, r)))

/-- The `/api/stats/summary` payload of `main.py` (`get_summary_stats`). -/
structure CorpusSummary where
  total_districts : ℕ
  total_enrolments : ℤ
  total_demo_updates : ℤ
  total_bio_updates : ℤ
  avg_identity_volatility : ℚ
  avg_adult_bio_compliance : ℚ
  typology_distribution : List (String × ℕ)
  deriving DecidableEq

/-- `get_summary_stats` of `main.py` lines 373–391: sums, means and the
typology histogram over the values of the district-keyed dict. -/
def getSummaryStats (e : List EnrolRow) (d : List DemoRow) (b : List BioRow) :
    CorpusSummary :=
  let vals := (districtDict (aggregateRows e d b)).map (fun p => p.2)
  { total_districts := vals.length
    total_enrolments := intTrunc (sumBy RegionRow.total_enrolments vals)
    total_demo_updates := intTrunc (sumBy RegionRow.total_demo_updates vals)
    total_bio_updates := intTrunc (sumBy RegionRow.total_bio_updates vals)
    avg_identity_volatility :=
      roundTo 4 (sumBy RegionRow.identity_volatility vals / (vals.length : ℚ))
    avg_adult_bio_compliance :=
      roundTo 2 (sumBy RegionRow.adult_bio_compliance vals / (vals.length : ℚ))
    typology_distribution :=
      valueCounts (vals.map RegionRow.district_typology) }

/-- One stored row of `interface/precompute_data.py`
(`compute_and_save_aggregates` lines 52–132): the same grouped counts, the
precompute variants of `lifecycle_integrity` (normalised percentage) and
`maintenance_imbalance` (unsigned), the absolute typology, with count
fields cast through `int()` and metrics rounded before storage. -/
structure RegionRowPre where
  state : String
  district : String
  total_enrolments : ℤ
  enrol_0_5 : ℤ
  enrol_5_17 : ℤ
  enrol_18_plus : ℤ
  total_demo_updates : ℤ
  demo_5_17 : ℤ
  demo_18_plus : ℤ
  total_bio_updates : ℤ
  bio_5_17 : ℤ
  bio_18_plus : ℤ
  adult_enrolment_share : ℚ
  child_enrolment_share : ℚ
  identity_volatility : ℚ
  adult_bio_compliance : ℚ
  child_bio_compliance : ℚ
  lifecycle_integrity : ℚ
  maintenance_imbalance : ℚ
  district_typology : String
  deriving DecidableEq

/-- `classify_typology` of `interface/precompute_data.py` lines 91–103
(the absolute policy, a pure function of one row's fields). -/
def classify_typology (total_enrolments adult_enrolment_share
    child_enrolment_share identity_volatility lifecycle_integrity : ℚ) :
    String :=
  if total_enrolments = 0 then "No Data"
  else if adult_enrolment_share > 70 then "Adult-Heavy"
  else if child_enrolment_share > 50 then "Child-Heavy"
  else if identity_volatility > 0.5 then "High-Churn"
  else if lifecycle_integrity > 50 then "Well-Maintained"
  else "Standard"

/-- Build the stored precompute row of one region
(`interface/precompute_data.py` lines 52–132).  Counts and totals are the
same group sums as in `main.py`; the derived metrics use the precompute
formulas; classification happens on the raw (unrounded) metrics; stored
metric values are rounded, stored counts are `int()`-cast. -/
def makeRowPre (e : List EnrolRow) (d : List DemoRow) (b : List BioRow)
    (k : String × String) : RegionRowPre :=
  let e05 := sumBy EnrolRow.age_0_5 (enrolRowsFor e k)
  let e517 := sumBy EnrolRow.age_5_17 (enrolRowsFor e k)
  let e18 := sumBy EnrolRow.age_18_greater (enrolRowsFor e k)
  let te := e05 + e517 + e18
  let d517 := sumBy DemoRow.demo_age_5_17 (demoRowsFor d k)
  let d18 := sumBy DemoRow.demo_age_17_ (demoRowsFor d k)
  let td := d517 + d18
  let b517 := sumBy BioRow.bio_age_5_17 (bioRowsFor b k)
  let b18 := sumBy BioRow.bio_age_17_ (bioRowsFor b k)
  let tb := b517 + b18
  let aes := e18 / repl0 te * 100
  let ces := (e05 + e517) / repl0 te * 100
  let iv := td / repl0 te
  let abc := b18 / repl0 e18 * 100
  let cbc := b517 / repl0 (e517 + e05) * 100
  let li := (tb + td) / (repl0 te * 2) * 100
  let mi := |td - tb| / repl0 (td + tb)
  { state := k.1
    district := k.2
    total_enrolments := intTrunc te
    enrol_0_5 := intTrunc e05
    enrol_5_17 := intTrunc e517
    enrol_18_plus := intTrunc e18
    total_demo_updates := intTrunc td
    demo_5_17 := intTrunc d517
    demo_18_plus := intTrunc d18
    total_bio_updates := intTrunc tb
    bio_5_17 := intTrunc b517
    bio_18_plus := intTrunc b18
    adult_enrolment_share := roundTo 2 aes
    child_enrolment_share := roundTo 2 ces
    identity_volatility := roundTo 4 iv
    adult_bio_compliance := roundTo 2 abc
    child_bio_compliance := roundTo 2 cbc
    lifecycle_integrity := roundTo 2 li
    maintenance_imbalance := roundTo 4 mi
    district_typology := classify_typology te aes ces iv li }

/-- The precompute aggregates, one stored row per merged region key. -/
def preAggregateRows (e : List EnrolRow) (d : List DemoRow) (b : List BioRow) :
    List RegionRowPre :=
  (mergedKeys e d b).map (makeRowPre e d b)

/-- The derived-metric block of the per-district response assembled by
`get_district_data` of `interface/main.py` (lines 343–349) from a stored
precomputed row. -/
structure PresentedMetrics where
  adult_enrolment_share : ℚ
  child_enrolment_share : ℚ
  identity_volatility : ℚ
  adult_bio_compliance : ℚ
  child_bio_compliance : ℚ
  lifecycle_integrity : ℚ
  maintenance_imbalance : ℚ
  deriving DecidableEq

/-- Presentation of a stored row by `get_district_data` of
`interface/main.py`: the two bio-compliance percentages are clamped with
`min(·, 100)` and re-rounded; every other metric is re-rounded unclamped. -/
def presentDistrict (r : RegionRowPre) : PresentedMetrics :=
  { adult_enrolment_share := roundTo 2 r.adult_enrolment_share
    child_enrolment_share := roundTo 2 r.child_enrolment_share
    identity_volatility := roundTo 4 r.identity_volatility
    adult_bio_compliance := roundTo 2 (min r.adult_bio_compliance 100)
    child_bio_compliance := roundTo 2 (min r.child_bio_compliance 100)
    lifecycle_integrity := roundTo 4 r.lifecycle_integrity
    maintenance_imbalance := roundTo 4 r.maintenance_imbalance }

/-- Whether a year is a leap year (Gregorian rule). -/
def isLeap (y : ℕ) : Bool :=
  (y % 4 == 0 && y % 100 != 0) || (y % 400 == 0)

/-- Days in a calendar month. -/
def daysInMonth (y m : ℕ) : ℕ :=
  if m = 2 then (if isLeap y then 29 else 28)
  else if m = 4 ∨ m = 6 ∨ m = 9 ∨ m = 11 then 30
  else 31

/-- Split a character list at each dash (the separator of the
`%d-%m-%Y` date format). -/
def splitDash : List Char → List (List Char)
  | [] => [[]]
  | c :: cs =>
    let r := splitDash cs
    if c = '-' then [] :: r else (c :: r.headI) :: r.tail

/-- Parse a non-empty all-digit character group into a number. -/
def digitsToNat (cs : List Char) : Option ℕ :=
  if cs ≠ [] ∧ cs.all Char.isDigit then
    some (cs.foldl (fun n c => 10 * n + (c.toNat - 48)) 0)
  else none

/-- Parse a date string in the `%d-%m-%Y` format accepted by
`pd.to_datetime(..., format=dd-mm-YYYY)`: day and month of one or two
digits, a four-digit year, and calendar validity.  Returns (year, month)
on success, `none` on a parse failure (pandas `NaT`). -/
def parseMonth (s : String) : Option (ℕ × ℕ) :=
  match splitDash s.data with
  | [ds, ms, ys] =>
    match digitsToNat ds, digitsToNat ms, digitsToNat ys with
    | some dv, some mv, some yv =>
      if ds.length ≤ 2 ∧ 1 ≤ ms.length ∧ ms.length ≤ 2 ∧
          ys.length = 4 ∧ 1 ≤ mv ∧ mv ≤ 12 ∧ 1 ≤ dv ∧ dv ≤ daysInMonth yv mv
      then some (yv, mv)
      else none
    | _, _, _ => none
  | _ => none

/-- Zero-pad a number to two digits. -/
def pad2 (n : ℕ) : String :=
  if n < 10 then "0" ++ toString n else toString n

/-- Zero-pad a number to four digits. -/
def pad4 (n : ℕ) : String :=
  if n < 10 then "000" ++ toString n
  else if n < 100 then "00" ++ toString n
  else if n < 1000 then "0" ++ toString n
  else toString n

/-- The month-bucket string of a raw date:
`to_datetime(errors=coerce).dt.to_period(M).astype(str)` yields
`"YYYY-MM"` for a parseable date and the literal string `"NaT"` for an
unparseable one. -/
def monthStr (s : String) : String :=
  match parseMonth s with
  | some (y, m) => pad4 y ++ "-" ++ pad2 m
  | none => "NaT"

/-- One of the three per-kind monthly sequences of a district in the
time-series table. -/
structure TSeries where
  months : List String
  total : List ℚ
  children : List ℚ
  adults : List ℚ
  deriving DecidableEq

/-- One district's entry in the time-series table. -/
structure TSEntry where
  enrolment : TSeries
  demographic : TSeries
  biometric : TSeries
  deriving DecidableEq

/-- The distinct raw district names of the enrolment collection, in the
order produced by `enrol_ts['district'].unique()` (sorted, because
groupby sorts its keys). -/
def uniqueDistricts (e : List EnrolRow) : List String :=
  sortBy strLe (e.map EnrolRow.district).dedup

/-- The sorted month buckets of a filtered row set (groupby on month plus
`sort_values('month')`). -/
def monthBuckets {α : Type} (dateOf : α → String) (rows : List α) :
    List String :=
  sortBy strLe ((rows.map (fun r => monthStr (dateOf r))).dedup)

/-- The enrolment series of one district (raw-name equality filter, as in
`enrol_ts[enrol_ts['district'] == district]`). -/
def mkSeriesE (e : List EnrolRow) (d0 : String) : TSeries :=
  let rs := e.filter (fun r => r.district == d0)
  let ms := monthBuckets EnrolRow.date rs
  let inMonth := fun (m : String) =>
    rs.filter (fun r => monthStr r.date == m)
  { months := ms
    total := ms.map (fun m =>
      sumBy (fun r => r.age_0_5 + r.age_5_17 + r.age_18_greater) (inMonth m))
    children := ms.map (fun m =>
      sumBy (fun r => r.age_0_5 + r.age_5_17) (inMonth m))
    adults := ms.map (fun m => sumBy EnrolRow.age_18_greater (inMonth m)) }

/-- The demographic series of one district. -/
def mkSeriesD (d : List DemoRow) (d0 : String) : TSeries :=
  let rs := d.filter (fun r => r.district == d0)
  let ms := monthBuckets DemoRow.date rs
  let inMonth := fun (m : String) =>
    rs.filter (fun r => monthStr r.date == m)
  { months := ms
    total := ms.map (fun m =>
      sumBy (fun r => r.demo_age_5_17 + r.demo_age_17_) (inMonth m))
    children := ms.map (fun m => sumBy DemoRow.demo_age_5_17 (inMonth m))
    adults := ms.map (fun m => sumBy DemoRow.demo_age_17_ (inMonth m)) }

/-- The biometric series of one district. -/
def mkSeriesB (b : List BioRow) (d0 : String) : TSeries :=
  let rs := b.filter (fun r => r.district == d0)
  let ms := monthBuckets BioRow.date rs
  let inMonth := fun (m : String) =>
    rs.filter (fun r => monthStr r.date == m)
  { months := ms
    total := ms.map (fun m =>
      sumBy (fun r => r.bio_age_5_17 + r.bio_age_17_) (inMonth m))
    children := ms.map (fun m => sumBy BioRow.bio_age_5_17 (inMonth m))
    adults := ms.map (fun m => sumBy BioRow.bio_age_17_ (inMonth m)) }

/-- `compute_time_series_data` of `main.py` lines 197–268: the result dict
is keyed by the normalised districts of the enrolment collection only;
each entry carries the three per-kind monthly series of that district. -/
def computeTimeSeries (e : List EnrolRow) (d : List DemoRow)
    (b : List BioRow) : List (String × TSEntry) :=
  dictOf ((uniqueDistricts e).map (fun d0 =>
    (normKey d0, ⟨mkSeriesE e d0, mkSeriesD d d0, mkSeriesB b d0⟩)))

/-- The time-series lookup of the serving layer:
`time_series.get(district_key, {})`, a miss yielding the empty result. -/
def tsLookup (ts : List (String × TSEntry)) (k : String) : Option TSEntry :=
  dictFind ts k

/-- The absolute typology policy transcribed from the specification's own
decision list (spec §4.3, used for comparison with the source's
`classify_typology`): total_enrolments == 0 → No Data; else
adult_enrolment_share > 70 → Adult-Heavy; else child_enrolment_share > 50
→ Child-Heavy; else identity_volatility > 0.5 → High-Churn; else
lifecycle_integrity > 50 → Well-Maintained; else Standard. -/
def absolutePolicySpec (total_enrolments adult_enrolment_share
    child_enrolment_share identity_volatility lifecycle_integrity : ℚ) :
    String :=
  if total_enrolments = 0 then "No Data"
  else if adult_enrolment_share > 70 then "Adult-Heavy"
  else if child_enrolment_share > 50 then "Child-Heavy"
  else if identity_volatility > 0.5 then "High-Churn"
  else if lifecycle_integrity > 50 then "Well-Maintained"
  else "Standard"

/-- The relative (median-based) typology policy transcribed from the
specification's decision list (spec §4.3): volatility < median_volatility
AND enrolment < median_enrolment → Stable & Saturated; else volatility ≥
median_volatility → Volatile; else enrolment ≥ median_enrolment →
Growth-focused; else adult_bio_compliance < 50 → Under-maintained; else
Balanced. -/
def relativePolicySpec (volatility enrolment bio_compliance
    median_enrolment median_volatility : ℚ) : String :=
  if volatility < median_volatility ∧ enrolment < median_enrolment then
    "Stable & Saturated"
  else if volatility ≥ median_volatility then
    "Volatile"
  else if enrolment ≥ median_enrolment then
    "Growth-focused"
  else if bio_compliance < 50 then
    "Under-maintained"
  else
    "Balanced"

/-- Example input: one enrolment row for region (A, X). -/
def exE1 : List EnrolRow :=
  [⟨"A", "X", "01-01-2023", 1, 2, 3⟩]

/-- Example input: one demographic row for region (A, X). -/
def exD1 : List DemoRow :=
  [⟨"A", "X", "01-01-2023", 4, 5⟩]

/-- Example input: one biometric row for region (A, X). -/
def exB1 : List BioRow :=
  [⟨"A", "X", "01-01-2023", 6, 7⟩]

/-- Example input: two states sharing the district name X, with different
enrolment counts — the rows collapse onto one key in the district-keyed
dict. -/
def exE2 : List EnrolRow :=
  [⟨"A", "X", "01-01-2023", 1, 0, 0⟩, ⟨"B", "X", "01-01-2023", 2, 0, 0⟩]

/-- Example input: one adult enrolment in region (A, X). -/
def exE3 : List EnrolRow :=
  [⟨"A", "X", "01-01-2023", 0, 0, 1⟩]

/-- Example input: five demographic updates in region (A, X). -/
def exD3 : List DemoRow :=
  [⟨"A", "X", "01-01-2023", 5, 0⟩]

/-- Example input: five adult biometric updates in region (A, X). -/
def exB3 : List BioRow :=
  [⟨"A", "X", "01-01-2023", 0, 5⟩]

/-- Example input: one enrolment row whose date string does not parse. -/
def exE4 : List EnrolRow :=
  [⟨"A", "D", "hello", 1, 2, 3⟩]

theorem mem_insertBy {α : Type} (le : α → α → Bool) (x : α) (l : List α)
    (a : α) : a ∈ insertBy le x l ↔ a = x ∨ a ∈ l := by
  induction l with
  | nil => simp [insertBy]
  | cons y ys ih =>
    by_cases h : le x y
    · simp [insertBy, h]
    · simp only [insertBy, if_neg h, List.mem_cons, ih]
      tauto

theorem mem_sortBy {α : Type} (le : α → α → Bool) (l : List α) (a : α) :
    a ∈ sortBy le l ↔ a ∈ l := by
  induction l with
  | nil => simp [sortBy]
  | cons x xs ih => simp [sortBy, mem_insertBy, ih]

theorem mem_mergedKeys (e : List EnrolRow) (d : List DemoRow)
    (b : List BioRow) (k : String × String) :
    k ∈ mergedKeys e d b ↔
      k ∈ enrolKeys e ∨ k ∈ demoKeys d ∨ k ∈ bioKeys b := by
  simp [mergedKeys, mem_sortBy, List.mem_dedup, List.mem_append, or_assoc]

theorem enrolRowsFor_eq_nil {e : List EnrolRow} {k : String × String}
    (h : k ∉ enrolKeys e) : enrolRowsFor e k = [] := by
  rw [enrolRowsFor, List.filter_eq_nil_iff]
  intro r hr
  simp only [beq_iff_eq]
  intro hk
  exact h (List.mem_map.mpr ⟨r, hr, hk⟩)

theorem demoRowsFor_eq_nil {d : List DemoRow} {k : String × String}
    (h : k ∉ demoKeys d) : demoRowsFor d k = [] := by
  rw [demoRowsFor, List.filter_eq_nil_iff]
  intro r hr
  simp only [beq_iff_eq]
  intro hk
  exact h (List.mem_map.mpr ⟨r, hr, hk⟩)

theorem bioRowsFor_eq_nil {b : List BioRow} {k : String × String}
    (h : k ∉ bioKeys b) : bioRowsFor b k = [] := by
  rw [bioRowsFor, List.filter_eq_nil_iff]
  intro r hr
  simp only [beq_iff_eq]
  intro hk
  exact h (List.mem_map.mpr ⟨r, hr, hk⟩)

theorem sumBy_nonneg {α : Type} {f : α → ℚ} {rows : List α}
    (h : ∀ r ∈ rows, 0 ≤ f r) : 0 ≤ sumBy f rows := by
  refine List.sum_nonneg ?_
  intro x hx
  obtain ⟨r, hr, rfl⟩ := List.mem_map.mp hx
  exact h r hr

/-- C4: the absolute typology policy of `interface/precompute_data.py` is a
pure function of one region's fields (its type takes nothing but them),
follows exactly the first-match-wins decision order stated in the claim
(it coincides with the spec-transcribed decision list on every input), and
always returns one of the six labels. -/
theorem classify_typology_matches_spec (te aes ces iv li : ℚ) :
    classify_typology te aes ces iv li = absolutePolicySpec te aes ces iv li
      ∧ classify_typology te aes ces iv li ∈
        ["No Data", "Adult-Heavy", "Child-Heavy", "High-Churn",
          "Well-Maintained", "Standard"] := by
  refine ⟨rfl, ?_⟩
  unfold classify_typology
  split_ifs <;> simp

/-- C5: the relative (median-based) typology policy of `main.py` /
`interface/main.py` coincides, on every input, with the first-match-wins
decision list stated in the claim (whose third branch tests only
`enrolment ≥ median_enrolment`; the source's extra `volatility <
median_volatility` conjunct is implied at that point). -/
theorem classify_district_matches_spec (v en bc me mv : ℚ) :
    classify_district v en bc me mv = relativePolicySpec v en bc me mv := by
  unfold classify_district relativePolicySpec
  by_cases h1 : v < mv ∧ en < me
  · simp [h1]
  · by_cases h2 : v ≥ mv
    · simp [h1, h2]
    · have hv : v < mv := lt_of_not_ge h2
      by_cases h3 : en ≥ me
      · simp [h1, h2, h3, hv]
      · simp [h1, h2, h3, hv]

/-- C9: for every input (in particular for every region of a non-empty
corpus, whatever the corpus medians are), the relative classifier returns
one of exactly three labels; the Under-maintained and Balanced branches
are unreachable. -/
theorem classify_district_three_labels (v en bc me mv : ℚ) :
    classify_district v en bc me mv ∈
      ["Stable & Saturated", "Volatile", "Growth-focused"] := by
  unfold classify_district
  by_cases h1 : v < mv ∧ en < me
  · simp [h1]
  · by_cases h2 : v ≥ mv
    · simp [h1, h2]
    · have hv : v < mv := lt_of_not_ge h2
      have hen : en ≥ me := by
        by_contra hlt
        exact h1 ⟨hv, lt_of_not_ge hlt⟩
      simp [h1, h2, hen, hv]


theorem headI_mem {α : Type} [Inhabited α] {l : List α} (h : l ≠ []) :
    l.headI ∈ l := by
  cases l with
  | nil => exact absurd rfl h
  | cons a t => simp [List.headI]

theorem aggregateRows_decomp {e : List EnrolRow} {d : List DemoRow}
    {b : List BioRow} {row : RegionRow} (h : row ∈ aggregateRows e d b) :
    ∃ k ∈ mergedKeys e d b, ∃ t : String,
      row = { makeRow e d b k with district_typology := t } := by
  unfold aggregateRows at h
  simp only [List.mem_map] at h
  obtain ⟨r, ⟨k, hk, rfl⟩, hrow⟩ := h
  exact ⟨k, hk, _, hrow.symm⟩

theorem mem_of_mem_enrolRowsFor {e : List EnrolRow} {k : String × String}
    {r : EnrolRow} (h : r ∈ enrolRowsFor e k) : r ∈ e :=
  (List.mem_filter.mp h).1

theorem mem_of_mem_demoRowsFor {d : List DemoRow} {k : String × String}
    {r : DemoRow} (h : r ∈ demoRowsFor d k) : r ∈ d :=
  (List.mem_filter.mp h).1

theorem mem_of_mem_bioRowsFor {b : List BioRow} {k : String × String}
    {r : BioRow} (h : r ∈ bioRowsFor b k) : r ∈ b :=
  (List.mem_filter.mp h).1

/-- C1: assuming every raw age-bracket count is non-negative, every count
field of every row produced by the aggregation pass is non-negative, and
each of the three total fields equals the sum of its named sub-brackets. -/
theorem aggregate_counts_invariant (e : List EnrolRow) (d : List DemoRow)
    (b : List BioRow)
    (he : ∀ r ∈ e, 0 ≤ r.age_0_5 ∧ 0 ≤ r.age_5_17 ∧ 0 ≤ r.age_18_greater)
    (hd : ∀ r ∈ d, 0 ≤ r.demo_age_5_17 ∧ 0 ≤ r.demo_age_17_)
    (hb : ∀ r ∈ b, 0 ≤ r.bio_age_5_17 ∧ 0 ≤ r.bio_age_17_)
    (row : RegionRow) (hrow : row ∈ aggregateRows e d b) :
    (0 ≤ row.enrol_0_5 ∧ 0 ≤ row.enrol_5_17 ∧ 0 ≤ row.enrol_18_plus ∧
        0 ≤ row.total_enrolments ∧ 0 ≤ row.demo_5_17 ∧
        0 ≤ row.demo_18_plus ∧ 0 ≤ row.total_demo_updates ∧
        0 ≤ row.bio_5_17 ∧ 0 ≤ row.bio_18_plus ∧ 0 ≤ row.total_bio_updates)
      ∧ row.total_enrolments
          = row.enrol_0_5 + row.enrol_5_17 + row.enrol_18_plus
      ∧ row.total_demo_updates = row.demo_5_17 + row.demo_18_plus
      ∧ row.total_bio_updates = row.bio_5_17 + row.bio_18_plus := by
  obtain ⟨k, hk, t, rfl⟩ := aggregateRows_decomp hrow
  have h05 : 0 ≤ sumBy EnrolRow.age_0_5 (enrolRowsFor e k) :=
    sumBy_nonneg (fun r hr => (he r (mem_of_mem_enrolRowsFor hr)).1)
  have h517 : 0 ≤ sumBy EnrolRow.age_5_17 (enrolRowsFor e k) :=
    sumBy_nonneg (fun r hr => (he r (mem_of_mem_enrolRowsFor hr)).2.1)
  have h18 : 0 ≤ sumBy EnrolRow.age_18_greater (enrolRowsFor e k) :=
    sumBy_nonneg (fun r hr => (he r (mem_of_mem_enrolRowsFor hr)).2.2)
  have hd517 : 0 ≤ sumBy DemoRow.demo_age_5_17 (demoRowsFor d k) :=
    sumBy_nonneg (fun r hr => (hd r (mem_of_mem_demoRowsFor hr)).1)
  have hd18 : 0 ≤ sumBy DemoRow.demo_age_17_ (demoRowsFor d k) :=
    sumBy_nonneg (fun r hr => (hd r (mem_of_mem_demoRowsFor hr)).2)
  have hb517 : 0 ≤ sumBy BioRow.bio_age_5_17 (bioRowsFor b k) :=
    sumBy_nonneg (fun r hr => (hb r (mem_of_mem_bioRowsFor hr)).1)
  have hb18 : 0 ≤ sumBy BioRow.bio_age_17_ (bioRowsFor b k) :=
    sumBy_nonneg (fun r hr => (hb r (mem_of_mem_bioRowsFor hr)).2)
  refine ⟨⟨?_, ?_, ?_, ?_, ?_, ?_, ?_, ?_, ?_, ?_⟩, ?_, ?_, ?_⟩ <;>
    simp only [makeRow] <;> first | assumption | linarith

/-- C1 witness: the invariant instantiated on a concrete one-region
corpus. -/
theorem aggregate_counts_invariant_witness :
    ((aggregateRows exE1 exD1 exB1).headI ∈ aggregateRows exE1 exD1 exB1)
      ∧ ((0 ≤ (aggregateRows exE1 exD1 exB1).headI.enrol_0_5 ∧
            0 ≤ (aggregateRows exE1 exD1 exB1).headI.enrol_5_17 ∧
            0 ≤ (aggregateRows exE1 exD1 exB1).headI.enrol_18_plus ∧
            0 ≤ (aggregateRows exE1 exD1 exB1).headI.total_enrolments ∧
            0 ≤ (aggregateRows exE1 exD1 exB1).headI.demo_5_17 ∧
            0 ≤ (aggregateRows exE1 exD1 exB1).headI.demo_18_plus ∧
            0 ≤ (aggregateRows exE1 exD1 exB1).headI.total_demo_updates ∧
            0 ≤ (aggregateRows exE1 exD1 exB1).headI.bio_5_17 ∧
            0 ≤ (aggregateRows exE1 exD1 exB1).headI.bio_18_plus ∧
            0 ≤ (aggregateRows exE1 exD1 exB1).headI.total_bio_updates)
          ∧ (aggregateRows exE1 exD1 exB1).headI.total_enrolments
              = (aggregateRows exE1 exD1 exB1).headI.enrol_0_5
                + (aggregateRows exE1 exD1 exB1).headI.enrol_5_17
                + (aggregateRows exE1 exD1 exB1).headI.enrol_18_plus
          ∧ (aggregateRows exE1 exD1 exB1).headI.total_demo_updates
              = (aggregateRows exE1 exD1 exB1).headI.demo_5_17
                + (aggregateRows exE1 exD1 exB1).headI.demo_18_plus
          ∧ (aggregateRows exE1 exD1 exB1).headI.total_bio_updates
              = (aggregateRows exE1 exD1 exB1).headI.bio_5_17
                + (aggregateRows exE1 exD1 exB1).headI.bio_18_plus) :=
  ⟨headI_mem (by decide),
    aggregate_counts_invariant exE1 exD1 exB1 (by norm_num [exE1])
      (by norm_num [exD1]) (by norm_num [exB1]) _ (headI_mem (by decide))⟩

theorem mem_aggregateRows_of_key {e : List EnrolRow} {d : List DemoRow}
    {b : List BioRow} {k : String × String} (hk : k ∈ mergedKeys e d b) :
    ∃ row ∈ aggregateRows e d b, ∃ t : String,
      row = { makeRow e d b k with district_typology := t } := by
  unfold aggregateRows
  exact ⟨_, List.mem_map.mpr ⟨makeRow e d b k,
    List.mem_map.mpr ⟨k, hk, rfl⟩, rfl⟩, _, rfl⟩

/-- C2: outer-join fill.  Every (state, district) pair appearing in any of
the three collections yields a merged row; when the pair is absent from the
demographic (resp. biometric, enrolment) collection, that row's
demographic (resp. biometric, enrolment) count fields and total are all 0
— the row is not dropped. -/
theorem outer_join_fill (e : List EnrolRow) (d : List DemoRow)
    (b : List BioRow) (k : String × String) (hk : k ∈ mergedKeys e d b) :
    ∃ row ∈ aggregateRows e d b,
      row.state = k.1 ∧ row.district = k.2 ∧
      (k ∉ demoKeys d →
        row.demo_5_17 = 0 ∧ row.demo_18_plus = 0 ∧
          row.total_demo_updates = 0) ∧
      (k ∉ bioKeys b →
        row.bio_5_17 = 0 ∧ row.bio_18_plus = 0 ∧
          row.total_bio_updates = 0) ∧
      (k ∉ enrolKeys e →
        row.enrol_0_5 = 0 ∧ row.enrol_5_17 = 0 ∧ row.enrol_18_plus = 0 ∧
          row.total_enrolments = 0) := by
  obtain ⟨row, hrow, t, rfl⟩ := mem_aggregateRows_of_key hk
  refine ⟨_, hrow, by simp [makeRow], by simp [makeRow], ?_, ?_, ?_⟩
  · intro hd
    simp [makeRow, demoRowsFor_eq_nil hd, sumBy]
  · intro hb
    simp [makeRow, bioRowsFor_eq_nil hb, sumBy]
  · intro he
    simp [makeRow, enrolRowsFor_eq_nil he, sumBy]

/-- C2 witness: a region present only in the enrolment collection. -/
theorem outer_join_fill_witness :
    (("A", "X") ∈ mergedKeys exE1 [] []) ∧
    ∃ row ∈ aggregateRows exE1 [] [],
      row.state = ("A", "X").1 ∧ row.district = ("A", "X").2 ∧
      (("A", "X") ∉ demoKeys [] →
        row.demo_5_17 = 0 ∧ row.demo_18_plus = 0 ∧
          row.total_demo_updates = 0) ∧
      (("A", "X") ∉ bioKeys [] →
        row.bio_5_17 = 0 ∧ row.bio_18_plus = 0 ∧
          row.total_bio_updates = 0) ∧
      (("A", "X") ∉ enrolKeys exE1 →
        row.enrol_0_5 = 0 ∧ row.enrol_5_17 = 0 ∧ row.enrol_18_plus = 0 ∧
          row.total_enrolments = 0) :=
  ⟨by decide, outer_join_fill exE1 [] [] ("A", "X") (by decide)⟩

/-- C3: the zero-denominator guard.  For a region row with non-negative
raw counts and `total_enrolments = 0`, both enrolment shares evaluate to 0
(no error, no null), and `identity_volatility` evaluates to
`total_demo_updates` — i.e. the division ran with the denominator 0
replaced by 1 instead of being skipped. -/
theorem zero_denominator_guard (e : List EnrolRow) (d : List DemoRow)
    (b : List BioRow)
    (he : ∀ r ∈ e, 0 ≤ r.age_0_5 ∧ 0 ≤ r.age_5_17 ∧ 0 ≤ r.age_18_greater)
    (row : RegionRow) (hrow : row ∈ aggregateRows e d b)
    (h0 : row.total_enrolments = 0) :
    row.adult_enrolment_share = 0 ∧ row.child_enrolment_share = 0 ∧
      row.identity_volatility = row.total_demo_updates := by
  obtain ⟨k, hk, t, rfl⟩ := aggregateRows_decomp hrow
  have h05 : 0 ≤ sumBy EnrolRow.age_0_5 (enrolRowsFor e k) :=
    sumBy_nonneg (fun r hr => (he r (mem_of_mem_enrolRowsFor hr)).1)
  have h517 : 0 ≤ sumBy EnrolRow.age_5_17 (enrolRowsFor e k) :=
    sumBy_nonneg (fun r hr => (he r (mem_of_mem_enrolRowsFor hr)).2.1)
  have h18 : 0 ≤ sumBy EnrolRow.age_18_greater (enrolRowsFor e k) :=
    sumBy_nonneg (fun r hr => (he r (mem_of_mem_enrolRowsFor hr)).2.2)
  simp only [makeRow] at h0 ⊢
  have he05 : sumBy EnrolRow.age_0_5 (enrolRowsFor e k) = 0 := by linarith
  have he517 : sumBy EnrolRow.age_5_17 (enrolRowsFor e k) = 0 := by linarith
  have he18 : sumBy EnrolRow.age_18_greater (enrolRowsFor e k) = 0 := by
    linarith
  rw [he05, he517, he18]
  norm_num [repl0]

/-- C3 witness: a region coming only from the demographic collection, so
that all its enrolment counts (hence `total_enrolments`) are 0. -/
theorem zero_denominator_guard_witness :
    ((aggregateRows [] exD1 []).headI ∈ aggregateRows [] exD1 []) ∧
    ((aggregateRows [] exD1 []).headI.total_enrolments = 0) ∧
    ((aggregateRows [] exD1 []).headI.adult_enrolment_share = 0 ∧
      (aggregateRows [] exD1 []).headI.child_enrolment_share = 0 ∧
      (aggregateRows [] exD1 []).headI.identity_volatility
        = (aggregateRows [] exD1 []).headI.total_demo_updates) := by
  have h0 : (aggregateRows [] exD1 []).headI.total_enrolments = 0 := by
    norm_num [aggregateRows, mergedKeys, enrolKeys, demoKeys, bioKeys,
      exD1, DemoRow.key, sortBy, insertBy, makeRow, sumBy, enrolRowsFor,
      List.headI]
  exact ⟨headI_mem (by decide), h0,
    zero_denominator_guard [] exD1 [] (by simp)
      ((aggregateRows [] exD1 []).headI) (headI_mem (by decide)) h0⟩

theorem keys_dictInsert {β : Type} (d : List (String × β)) (k : String)
    (v : β) (k0 : String) :
    k0 ∈ (dictInsert d k v).map Prod.fst ↔
      k0 ∈ d.map Prod.fst ∨ k0 = k := by
  unfold dictInsert
  by_cases h : d.any (fun p => p.1 == k)
  · have hkeys : (d.map (fun p => if p.1 == k then (k, v) else p)).map
        Prod.fst = d.map Prod.fst := by
      rw [List.map_map]
      refine List.map_congr_left ?_
      intro p hp
      by_cases hpk : p.1 == k
      · simp [hpk, (beq_iff_eq.mp hpk).symm]
      · have hne : p.1 ≠ k := by simpa using hpk
        simp [beq_iff_eq, hne]
    have hk : k ∈ d.map Prod.fst := by
      obtain ⟨p, hp, hpk⟩ := List.any_eq_true.mp h
      exact List.mem_map.mpr ⟨p, hp, beq_iff_eq.mp hpk⟩
    simp only [h, if_true, hkeys]
    constructor
    · exact Or.inl
    · rintro (h1 | rfl)
      · exact h1
      · exact hk
  · simp only [h, if_false, List.map_append]
    simp

theorem keys_dictOf_foldl {β : Type} (ps acc : List (String × β))
    (k0 : String) :
    k0 ∈ (ps.foldl (fun d p => dictInsert d p.1 p.2) acc).map Prod.fst ↔
      k0 ∈ acc.map Prod.fst ∨ k0 ∈ ps.map Prod.fst := by
  induction ps generalizing acc with
  | nil => simp
  | cons p ps ih =>
    simp only [List.foldl_cons, ih, keys_dictInsert, List.map_cons,
      List.mem_cons]
    tauto

theorem keys_dictOf {β : Type} (ps : List (String × β)) (k0 : String) :
    k0 ∈ (dictOf ps).map Prod.fst ↔ k0 ∈ ps.map Prod.fst := by
  unfold dictOf
  rw [keys_dictOf_foldl]
  simp

theorem dictFind_eq_none {β : Type} (d : List (String × β)) (k : String) :
    dictFind d k = none ↔ k ∉ d.map Prod.fst := by
  unfold dictFind
  rw [Option.map_eq_none', List.find?_eq_none]
  simp only [beq_iff_eq, List.mem_map]
  constructor
  · rintro h ⟨p, hp, rfl⟩
    exact h p hp rfl
  · rintro h p hp rfl
    exact h ⟨p, hp, rfl⟩

theorem tsLookup_eq_none_iff (e : List EnrolRow) (d : List DemoRow)
    (b : List BioRow) (key : String) :
    tsLookup (computeTimeSeries e d b) key = none ↔
      ∀ r ∈ e, normKey r.district ≠ key := by
  unfold tsLookup computeTimeSeries
  rw [dictFind_eq_none, keys_dictOf]
  rw [List.map_map]
  simp only [Function.comp, List.mem_map, uniqueDistricts, mem_sortBy,
    List.mem_dedup]
  constructor
  · rintro h r hr rfl
    exact h ⟨r.district, ⟨r, hr, rfl⟩, rfl⟩
  · rintro h ⟨d0, ⟨r, hr, rfl⟩, rfl⟩
    exact h r hr rfl

/-- C10: the time-series table is keyed by the (normalised) districts of
the enrolment collection only: the lookup misses (yields the empty result)
exactly when no enrolment row has that normalised district name.  In
particular a region with only demographic or biometric events gets no
entry, and its monthly data is never exposed. -/
theorem time_series_enrolment_districts_only (e : List EnrolRow)
    (d : List DemoRow) (b : List BioRow) (key : String) :
    tsLookup (computeTimeSeries e d b) key = none ↔
      ∀ r ∈ e, normKey r.district ≠ key :=
  tsLookup_eq_none_iff e d b key

theorem any_keys_eq_false {β : Type} {d : List (String × β)} {k : String}
    (h : k ∉ d.map Prod.fst) : d.any (fun p => p.1 == k) = false := by
  rw [List.any_eq_false]
  intro p hp
  simp only [beq_iff_eq]
  exact fun hk => h (List.mem_map.mpr ⟨p, hp, hk⟩)

theorem dictOf_of_nodup {β : Type} (ps : List (String × β))
    (h : (ps.map Prod.fst).Nodup) : dictOf ps = ps := by
  induction ps using List.reverseRecOn with
  | nil => rfl
  | append_singleton ps p ih =>
    rw [List.map_append, List.nodup_append] at h
    obtain ⟨h1, -, h3⟩ := h
    have hnot : p.1 ∉ ps.map Prod.fst := by
      intro hmem
      exact h3 hmem (by simp)
    have hstep : dictOf (ps ++ [p]) = dictInsert (dictOf ps) p.1 p.2 := by
      unfold dictOf
      rw [List.foldl_append]
      rfl
    rw [hstep, ih h1]
    unfold dictInsert
    rw [any_keys_eq_false hnot]
    simp

theorem dictOf_pair_same {β : Type} (k : String) (v1 v2 : β) :
    dictOf [(k, v1), (k, v2)] = [(k, v2)] := by
  simp [dictOf, dictInsert]

theorem valueCounts_sum (l : List String) :
    ((valueCounts l).map Prod.snd).sum = l.length := by
  unfold valueCounts
  rw [List.map_map]
  simpa [Function.comp] using List.sum_map_count_dedup_eq_length l

/-- C6 counterexample: the summary is computed over the dict keyed by the
normalised district name alone, so two states sharing the district name X
collapse onto one dict entry and the summary total (2) is not the sum of
`total_enrolments` across the per-(state, district) rows (3). -/
theorem summary_totals_counterexample :
    (getSummaryStats exE2 [] []).total_enrolments = 2 ∧
    intTrunc (sumBy RegionRow.total_enrolments (aggregateRows exE2 [] []))
      = 3 ∧
    (getSummaryStats exE2 [] []).total_enrolments
      ≠ intTrunc (sumBy RegionRow.total_enrolments
          (aggregateRows exE2 [] [])) := by
  have hproj : (aggregateRows exE2 [] []).map
      (fun r => (normKey r.district, r.total_enrolments))
        = [("x", 1), ("x", 2)] := by
    have hnorm : normKey "X" = "x" := by decide
    have hkeys : mergedKeys exE2 [] [] = [("A", "X"), ("B", "X")] := by
      decide
    have hfA : enrolRowsFor exE2 ("A", "X")
        = [⟨"A", "X", "01-01-2023", 1, 0, 0⟩] := by decide
    have hfB : enrolRowsFor exE2 ("B", "X")
        = [⟨"B", "X", "01-01-2023", 2, 0, 0⟩] := by decide
    norm_num [aggregateRows, hkeys, hnorm, hfA, hfB, makeRow, sumBy,
      demoRowsFor, bioRowsFor]
  obtain ⟨r1, r2, hrows⟩ : ∃ r1 r2, aggregateRows exE2 [] [] = [r1, r2] :=
    ⟨_, _, rfl⟩
  rw [hrows] at hproj
  simp only [List.map_cons, List.map_nil, List.cons.injEq,
    Prod.mk.injEq] at hproj
  obtain ⟨⟨hn1, ht1⟩, ⟨hn2, ht2⟩, -⟩ := hproj
  have hsum : (getSummaryStats exE2 [] []).total_enrolments = 2 := by
    unfold getSummaryStats districtDict
    rw [hrows]
    simp only [List.map_cons, List.map_nil, hn1, hn2]
    rw [dictOf_pair_same]
    simp [sumBy, ht2, intTrunc]
  have hrowsum : intTrunc (sumBy RegionRow.total_enrolments
      (aggregateRows exE2 [] [])) = 3 := by
    rw [hrows]
    simp [sumBy, ht1, ht2, intTrunc]
  refine ⟨hsum, hrowsum, ?_⟩
  rw [hsum, hrowsum]
  decide

/-- C6 amended: the typology histogram counts always sum to the reported
region count (unconditionally, for every corpus); and when no two merged
region rows share a normalised district name (so the district-keyed dict
drops nothing), the summary totals equal the truncated sums of
`total_enrolments`, `total_demo_updates` and `total_bio_updates` across
the per-(state, district) rows.  (Without that injectivity condition,
rows of same-named districts in different states overwrite each other in
the dict before summing — see the counterexample.) -/
theorem summary_totals_from_rows (e : List EnrolRow) (d : List DemoRow)
    (b : List BioRow) :
    ((getSummaryStats e d b).typology_distribution.map Prod.snd).sum
        = (getSummaryStats e d b).total_districts
      ∧ (((aggregateRows e d b).map (fun r => normKey r.district)).Nodup →
          (getSummaryStats e d b).total_enrolments
              = intTrunc (sumBy RegionRow.total_enrolments
                  (aggregateRows e d b))
            ∧ (getSummaryStats e d b).total_demo_updates
              = intTrunc (sumBy RegionRow.total_demo_updates
                  (aggregateRows e d b))
            ∧ (getSummaryStats e d b).total_bio_updates
              = intTrunc (sumBy RegionRow.total_bio_updates
                  (aggregateRows e d b))) := by
  constructor
  · simp only [getSummaryStats, valueCounts_sum, List.length_map]
  · intro hnd
    have hdict : districtDict (aggregateRows e d b)
        = (aggregateRows e d b).map (fun r => (normKey r.district, r)) := by
      refine dictOf_of_nodup _ ?_
      rw [List.map_map]
      simpa [Function.comp] using hnd
    have hvals : (districtDict (aggregateRows e d b)).map (fun p => p.2)
        = aggregateRows e d b := by
      rw [hdict, List.map_map]
      have hcomp : ((fun p : String × RegionRow => p.2) ∘
          fun r : RegionRow => (normKey r.district, r)) = id := rfl
      rw [hcomp, List.map_id]
    refine ⟨?_, ?_, ?_⟩ <;> simp only [getSummaryStats, hvals]

/-- C6 amended witness: a one-region corpus, where the injectivity
condition of the totals part holds and is discharged concretely. -/
theorem summary_totals_from_rows_witness :
    ((aggregateRows exE1 exD1 exB1).map (fun r => normKey r.district)).Nodup
      ∧ ((getSummaryStats exE1 exD1 exB1).typology_distribution.map
            Prod.snd).sum
          = (getSummaryStats exE1 exD1 exB1).total_districts
      ∧ ((getSummaryStats exE1 exD1 exB1).total_enrolments
          = intTrunc (sumBy RegionRow.total_enrolments
              (aggregateRows exE1 exD1 exB1))
        ∧ (getSummaryStats exE1 exD1 exB1).total_demo_updates
          = intTrunc (sumBy RegionRow.total_demo_updates
              (aggregateRows exE1 exD1 exB1))
        ∧ (getSummaryStats exE1 exD1 exB1).total_bio_updates
          = intTrunc (sumBy RegionRow.total_bio_updates
              (aggregateRows exE1 exD1 exB1))) :=
  ⟨by decide, (summary_totals_from_rows exE1 exD1 exB1).1,
    (summary_totals_from_rows exE1 exD1 exB1).2 (by decide)⟩

theorem round_rat_mono {a b : ℚ} (h : a ≤ b) : round a ≤ round b := by
  rw [round_eq, round_eq]
  exact Int.floor_mono (by linarith)

theorem roundTo_le_hundred (n : ℕ) {x : ℚ} (h : x ≤ 100) :
    roundTo n x ≤ 100 := by
  unfold roundTo
  rw [div_le_iff₀ (by positivity)]
  have hpow : (0 : ℚ) < 10 ^ n := by positivity
  have h1 : round (x * 10 ^ n) ≤ round ((100 : ℚ) * 10 ^ n) :=
    round_rat_mono (by nlinarith)
  have h2 : round ((100 : ℚ) * 10 ^ n) = (100 : ℤ) * 10 ^ n := by
    have hc : ((100 * 10 ^ n : ℤ) : ℚ) = (100 : ℚ) * 10 ^ n := by
      push_cast
      ring
    rw [← hc, round_intCast]
  calc ((round (x * 10 ^ n) : ℤ) : ℚ)
      ≤ ((round ((100 : ℚ) * 10 ^ n) : ℤ) : ℚ) := by exact_mod_cast h1
    _ = 100 * 10 ^ n := by rw [h2]; push_cast; ring

theorem share_le_hundred {a t : ℚ} (ha : 0 ≤ a) (hat : a ≤ t) :
    a / repl0 t * 100 ≤ 100 := by
  unfold repl0
  split_ifs with h
  · have ha0 : a = 0 := le_antisymm (h ▸ hat) ha
    simp [ha0]
  · have ht : 0 < t := lt_of_le_of_ne (le_trans ha hat) (Ne.symm h)
    have hd : a / t ≤ 1 := (div_le_one ht).mpr hat
    nlinarith

/-- C7 counterexample: `lifecycle_integrity` in its percentage variant is
presented unclamped by `get_district_data` of `interface/main.py`; for a
region with 1 enrolment, 5 demographic and 5 biometric updates the
presented value is 500, above 100.  (Only the two bio-compliance
percentages receive the `min(·, 100)` presentation clamp.) -/
theorem presented_lifecycle_counterexample :
    (("A", "X") ∈ mergedKeys exE3 exD3 exB3) ∧
    (presentDistrict (makeRowPre exE3 exD3 exB3
        ("A", "X"))).lifecycle_integrity = 500 ∧
    ¬ (presentDistrict (makeRowPre exE3 exD3 exB3
        ("A", "X"))).lifecycle_integrity ≤ 100 := by
  have hfE : enrolRowsFor exE3 ("A", "X")
      = [⟨"A", "X", "01-01-2023", 0, 0, 1⟩] := by decide
  have hfD : demoRowsFor exD3 ("A", "X")
      = [⟨"A", "X", "01-01-2023", 5, 0⟩] := by decide
  have hfB : bioRowsFor exB3 ("A", "X")
      = [⟨"A", "X", "01-01-2023", 0, 5⟩] := by decide
  have hval : (presentDistrict (makeRowPre exE3 exD3 exB3
      ("A", "X"))).lifecycle_integrity = 500 := by
    norm_num [makeRowPre, presentDistrict, sumBy, hfE, hfD, hfB, repl0,
      roundTo]
  refine ⟨by decide, hval, ?_⟩
  rw [hval]
  norm_num

/-- C7 amended: of the percentage-valued metrics presented by
`get_district_data`, the two bio compliances are clamped to 100 by
`min(·, 100)` at presentation, and the two enrolment shares never exceed
100 to begin with (given non-negative counts); `lifecycle_integrity` in
its percentage variant, however, is presented unclamped (re-rounded only),
and the stored `adult_bio_compliance` can exceed 100 when adult bio
updates outnumber adult enrolments. -/
theorem presented_metrics_clamped (e : List EnrolRow) (d : List DemoRow)
    (b : List BioRow) (k : String × String)
    (he : ∀ r ∈ e, 0 ≤ r.age_0_5 ∧ 0 ≤ r.age_5_17 ∧ 0 ≤ r.age_18_greater)
    (_hk : k ∈ mergedKeys e d b) :
    (presentDistrict (makeRowPre e d b k)).adult_enrolment_share ≤ 100 ∧
    (presentDistrict (makeRowPre e d b k)).child_enrolment_share ≤ 100 ∧
    (presentDistrict (makeRowPre e d b k)).adult_bio_compliance ≤ 100 ∧
    (presentDistrict (makeRowPre e d b k)).child_bio_compliance ≤ 100 ∧
    (presentDistrict (makeRowPre e d b k)).lifecycle_integrity
      = roundTo 4 (makeRowPre e d b k).lifecycle_integrity ∧
    (∃ e2 b2 k2, 100 < (makeRowPre e2 [] b2 k2).adult_bio_compliance) := by
  have h05 : 0 ≤ sumBy EnrolRow.age_0_5 (enrolRowsFor e k) :=
    sumBy_nonneg (fun r hr => (he r (mem_of_mem_enrolRowsFor hr)).1)
  have h517 : 0 ≤ sumBy EnrolRow.age_5_17 (enrolRowsFor e k) :=
    sumBy_nonneg (fun r hr => (he r (mem_of_mem_enrolRowsFor hr)).2.1)
  have h18 : 0 ≤ sumBy EnrolRow.age_18_greater (enrolRowsFor e k) :=
    sumBy_nonneg (fun r hr => (he r (mem_of_mem_enrolRowsFor hr)).2.2)
  refine ⟨?_, ?_, ?_, ?_, rfl, ?_⟩
  · simp only [presentDistrict, makeRowPre]
    exact roundTo_le_hundred 2 (roundTo_le_hundred 2
      (share_le_hundred h18 (by linarith)))
  · simp only [presentDistrict, makeRowPre]
    exact roundTo_le_hundred 2 (roundTo_le_hundred 2
      (share_le_hundred (by linarith) (by linarith)))
  · simp only [presentDistrict, makeRowPre]
    exact roundTo_le_hundred 2 (min_le_right _ _)
  · simp only [presentDistrict, makeRowPre]
    exact roundTo_le_hundred 2 (min_le_right _ _)
  · refine ⟨exE3, exB3, ("A", "X"), ?_⟩
    have hfE : enrolRowsFor exE3 ("A", "X")
        = [⟨"A", "X", "01-01-2023", 0, 0, 1⟩] := by decide
    have hfB : bioRowsFor exB3 ("A", "X")
        = [⟨"A", "X", "01-01-2023", 0, 5⟩] := by decide
    norm_num [makeRowPre, sumBy, hfE, hfB, demoRowsFor, repl0, roundTo]

/-- C7 amended witness: the clamp bounds instantiated on a concrete
region. -/
theorem presented_metrics_clamped_witness :
    (∀ r ∈ exE1, 0 ≤ r.age_0_5 ∧ 0 ≤ r.age_5_17 ∧ 0 ≤ r.age_18_greater) ∧
    (("A", "X") ∈ mergedKeys exE1 exD1 exB1) ∧
    ((presentDistrict (makeRowPre exE1 exD1 exB1
        ("A", "X"))).adult_enrolment_share ≤ 100 ∧
      (presentDistrict (makeRowPre exE1 exD1 exB1
        ("A", "X"))).child_enrolment_share ≤ 100 ∧
      (presentDistrict (makeRowPre exE1 exD1 exB1
        ("A", "X"))).adult_bio_compliance ≤ 100 ∧
      (presentDistrict (makeRowPre exE1 exD1 exB1
        ("A", "X"))).child_bio_compliance ≤ 100 ∧
      (presentDistrict (makeRowPre exE1 exD1 exB1
        ("A", "X"))).lifecycle_integrity
        = roundTo 4 (makeRowPre exE1 exD1 exB1 ("A", "X")).lifecycle_integrity ∧
      (∃ e2 b2 k2, 100 < (makeRowPre e2 [] b2 k2).adult_bio_compliance)) :=
  ⟨by norm_num [exE1], by decide,
    presented_metrics_clamped exE1 exD1 exB1 ("A", "X")
      (by norm_num [exE1]) (by decide)⟩

/-- C8 counterexample: a row whose date fails to parse is NOT excluded
from the time-series output — `to_period('M').astype(str)` turns `NaT`
into the literal month key "NaT", which survives the groupby and shows up
as a bucket in the district's months sequence. -/
theorem nat_bucket_counterexample :
    parseMonth "hello" = none ∧
    (tsLookup (computeTimeSeries exE4 [] []) (normKey "D")).map
      (fun t => t.enrolment.months) = some ["NaT"] :=
  ⟨by decide, by decide⟩

/-- C8 amended: a raw enrolment row whose date string fails to parse is
placed in the month bucket with the literal key "NaT"; that bucket appears
in the district's enrolment months sequence of the time-series output
(the row is not excluded from it), the district still has a time-series
entry, and the row still counts toward the region's overall aggregate
totals (it belongs to the row group whose sums define them — the
aggregation pass never looks at dates). -/
theorem nat_bucket_in_output (e : List EnrolRow) (d : List DemoRow)
    (b : List BioRow) (r : EnrolRow) (hr : r ∈ e)
    (hp : parseMonth r.date = none) :
    monthStr r.date = "NaT" ∧
    "NaT" ∈ (mkSeriesE e r.district).months ∧
    tsLookup (computeTimeSeries e d b) (normKey r.district) ≠ none ∧
    r ∈ enrolRowsFor e (r.state, r.district) := by
  have hm : monthStr r.date = "NaT" := by
    unfold monthStr
    rw [hp]
  refine ⟨hm, ?_, ?_, ?_⟩
  · simp only [mkSeriesE, monthBuckets]
    refine (mem_sortBy _ _ _).mpr ?_
    rw [List.mem_dedup]
    refine List.mem_map.mpr ⟨r, ?_, hm⟩
    exact List.mem_filter.mpr ⟨hr, by simp⟩
  · rw [Ne, tsLookup_eq_none_iff]
    push_neg
    exact ⟨r, hr, rfl⟩
  · exact List.mem_filter.mpr ⟨hr, by simp [EnrolRow.key]⟩

/-- C8 amended witness: the unparseable-date row of `exE4`. -/
theorem nat_bucket_in_output_witness :
    ((⟨"A", "D", "hello", 1, 2, 3⟩ : EnrolRow) ∈ exE4) ∧
    parseMonth (EnrolRow.date ⟨"A", "D", "hello", 1, 2, 3⟩) = none ∧
    (monthStr (EnrolRow.date ⟨"A", "D", "hello", 1, 2, 3⟩) = "NaT" ∧
      "NaT" ∈ (mkSeriesE exE4
        (EnrolRow.district ⟨"A", "D", "hello", 1, 2, 3⟩)).months ∧
      tsLookup (computeTimeSeries exE4 [] [])
        (normKey (EnrolRow.district ⟨"A", "D", "hello", 1, 2, 3⟩)) ≠ none ∧
      (⟨"A", "D", "hello", 1, 2, 3⟩ : EnrolRow) ∈ enrolRowsFor exE4
        (EnrolRow.state ⟨"A", "D", "hello", 1, 2, 3⟩,
          EnrolRow.district ⟨"A", "D", "hello", 1, 2, 3⟩)) :=
  ⟨by decide, by decide,
    nat_bucket_in_output exE4 [] [] ⟨"A", "D", "hello", 1, 2, 3⟩
      (by decide) (by decide)⟩
